import Mathlib

/-!
# Verification of `src/messageBroker.ts` (erxes queue-backed RPC and notification dispatcher)

Shallow embedding of the message-broker module.  JavaScript values parsed from
JSON bodies are modelled by the `Json` inductive; the JS value `undefined` is
modelled by `Option` (`none` = `undefined`).  Each consumer callback is
embedded as a pure function from the delivered message (and the behaviour of
its external handler, passed as a function argument) to the list of observable
effects it performs on the channel, plus a flag recording whether the async
callback threw (rejected) before completing.
-/

mutual
/-- JSON values (the result of a successful `JSON.parse`).  Objects are ordered
lists of key/value pairs (`JsonFields`); `JSON.parse` never yields duplicate
keys, so field lookup by first match is exact. -/
inductive Json where
  | null : Json
  | bool (b : Bool) : Json
  | num (n : Int) : Json
  | str (s : String) : Json
  | arr (xs : JsonList) : Json
  | obj (fields : JsonFields) : Json
deriving DecidableEq, Repr
/-- Elements of a JSON array. -/
inductive JsonList where
  | nil : JsonList
  | cons (hd : Json) (tl : JsonList) : JsonList
deriving DecidableEq, Repr
/-- Key/value pairs of a JSON object. -/
inductive JsonFields where
  | nil : JsonFields
  | cons (key : String) (val : Json) (tl : JsonFields) : JsonFields
deriving DecidableEq, Repr
end

/-- Value of the first field named `key`, if any. -/
def JsonFields.find? : JsonFields → String → Option Json
  | .nil, _ => none
  | .cons k v tl, key => if k = key then some v else tl.find? key

/-- All fields except those named `key`. -/
def JsonFields.remove : JsonFields → String → JsonFields
  | .nil, _ => .nil
  | .cons k v tl, key => if k = key then tl.remove key else .cons k v (tl.remove key)

namespace Json

/-- JS property access `j.k` for a non-null base: on an object, the value of
the field named `k` (`none` = `undefined` when absent); on any other non-null
primitive, `undefined`.  (Access on `null` throws and is handled at each use
site.) -/
def getField : Json → String → Option Json
  | .obj fields, k => fields.find? k
  | _, _ => none

/-- JS `delete j.k`: removes the field `k` from an object, leaves any other
non-null value unchanged.  (`delete null.k` throws; handled at the use site.) -/
def removeField : Json → String → Json
  | .obj fields, k => .obj (fields.remove k)
  | j, _ => j

end Json

/-- AMQP message properties used by the module: `correlationId` and `replyTo`,
each possibly absent (`none` = JS `undefined`). -/
structure MsgProps where
  correlationId : Option String
  replyTo : Option String
deriving DecidableEq, Repr

/-- A delivered message body as seen through `JSON.parse`: either it parses to
a `Json` value or `JSON.parse` throws on the raw text. -/
inductive Content where
  | wellFormed (j : Json) : Content
  | malformed (raw : String) : Content
deriving DecidableEq, Repr

/-- A delivered AMQP message: content plus properties. -/
structure Message where
  content : Content
  properties : MsgProps
deriving DecidableEq, Repr

/-- Observable effects a consumer callback / client function performs.
`debugLog` records a `debugBase` call whose text interpolates the message
content; `publishEvent` records `graphqlPubsub.publish(name, data)`;
`updateDoNotDisturb` records the `Customers.updateOne` call of the engages
consumer; `createRobotEntry` records `RobotEntries.createEntry` (whose own
success/failure is caught detachedly in the source and only logged). -/
inductive Effect where
  | assertQueue (name : String) (exclusive : Bool) : Effect
  | consume (queue : String) (noAck : Bool) : Effect
  | sendToQueue (queue : Option String) (body : Json) (props : MsgProps) : Effect
  | ack (m : Message) : Effect
  | deleteQueue (name : String) : Effect
  | debugLog (c : Content) : Effect
  | publishEvent (name : Option Json) (payload : Option Json) : Effect
  | updateDoNotDisturb (customerId : Option Json) : Effect
  | createRobotEntry (data : Json) : Effect
deriving DecidableEq, Repr

/-- How a single invocation of the promise executor's reply callback settles
the `sendRPCMessage` promise: not at all, `resolve(res.data)`,
`reject(new Error(...))` for a cancelled consumer, or `reject(res.errorMessage)`. -/
inductive RpcOutcome where
  | pending : RpcOutcome
  | resolved (data : Option Json) : RpcOutcome
  | rejectedError (message : String) : RpcOutcome
  | rejectedValue (errorMessage : Option Json) : RpcOutcome
deriving DecidableEq, Repr

/-- Result of one invocation of the reply-queue consumer callback inside
`sendRPCMessage`: how it settles the promise, which queue (if any) it passed
to `channel.deleteQueue`, and whether the callback itself threw. -/
structure ReplyStep where
  outcome : RpcOutcome
  deleted : Option String
  threw : Bool
deriving DecidableEq, Repr

/-- The reply-queue consumer callback of `sendRPCMessage`
(src/src/messageBroker.ts lines 114-130), for the generated `correlationId`
and the broker-chosen reply-queue name `qQueue`, applied to one delivery
(`none` models the broker invoking the callback with a null message):

```
msg => {
  if (!msg) { return reject(new Error('consumer cancelled by rabbitmq')); }
  if (msg.properties.correlationId === correlationId) {
    const res = JSON.parse(msg.content.toString());
    if (res.status === 'success') { resolve(res.data); } else { reject(res.errorMessage); }
    channel.deleteQueue(q.queue);
  }
}
```

`JSON.parse` throwing, or field access on a parsed `null`, makes the callback
throw with nothing settled and no queue deleted. -/
def rpcReplyCallback (correlationId : String) (qQueue : String)
    (msg : Option Message) : ReplyStep :=
  match msg with
  | none => { outcome := .rejectedError "consumer cancelled by rabbitmq",
              deleted := none, threw := false }
  | some m =>
    if m.properties.correlationId = some correlationId then
      match m.content with
      | .malformed _ => { outcome := .pending, deleted := none, threw := true }
      | .wellFormed res =>
        if res = .null then
          { outcome := .pending, deleted := none, threw := true }
        else if res.getField "status" = some (.str "success") then
          { outcome := .resolved (res.getField "data"),
            deleted := some qQueue, threw := false }
        else
          { outcome := .rejectedValue (res.getField "errorMessage"),
            deleted := some qQueue, threw := false }
    else
      { outcome := .pending, deleted := none, threw := false }

/-- The channel operations `sendRPCMessage` performs before any reply arrives
(src/src/messageBroker.ts lines 111-137), given the payload `message`, the
generated `correlationId` and the broker-chosen name `qQueue` of the queue
asserted as `''` with `{ exclusive: true }`:
assert the exclusive reply queue, consume it with `{ noAck: true }`, then
`sendToQueue('rpc_queue:erxes-api', JSON.stringify(message), { correlationId, replyTo: q.queue })`. -/
def sendRPCMessageSetup (message : Json) (correlationId : String)
    (qQueue : String) : List Effect :=
  [ .assertQueue "" true,
    .consume qQueue true,
    .sendToQueue (some "rpc_queue:erxes-api") message
      { correlationId := some correlationId, replyTo := some qQueue } ]

/-- Result of one invocation of a well-known-queue consumer callback: the
channel/collaborator effects it performed, in order, and whether the async
callback threw (rejected) before running to completion.  A rejection of the
callback's promise is an unhandled rejection in the source; it does not stop
the channel from delivering further messages. -/
structure ConsumerResult where
  ops : List Effect
  threw : Bool
deriving DecidableEq, Repr

/-- The `rpc_queue:erxes-integrations` consumer callback
(src/src/messageBroker.ts lines 158-170).  The external handler
`receiveRpcMessage` is passed as a function; `.error` models its promise
rejecting (the `await` then throws, skipping the reply publish and the ack):

```
async msg => {
  if (msg !== null) {
    debugBase(...);
    const response = await receiveRpcMessage(JSON.parse(msg.content.toString()));
    channel.sendToQueue(msg.properties.replyTo, Buffer.from(JSON.stringify(response)),
      { correlationId: msg.properties.correlationId });
    channel.ack(msg);
  }
}
``` -/
def rpcConsumerStep (receiveRpcMessage : Json → Except String Json)
    (msg : Option Message) : ConsumerResult :=
  match msg with
  | none => { ops := [], threw := false }
  | some m =>
    match m.content with
    | .malformed _ => { ops := [.debugLog m.content], threw := true }
    | .wellFormed j =>
      match receiveRpcMessage j with
      | .error _ => { ops := [.debugLog m.content], threw := true }
      | .ok response =>
        { ops := [.debugLog m.content,
                  .sendToQueue m.properties.replyTo response
                    { correlationId := m.properties.correlationId, replyTo := none },
                  .ack m],
          threw := false }

/-- The `callPublish` consumer callback (src/src/messageBroker.ts lines
175-183): parse, `graphqlPubsub.publish(params.name, params.data)`, ack.
A malformed body makes `JSON.parse` throw, and a parsed `null` makes the
`params.name` access throw; either way nothing is published or acked. -/
def callPublishStep (msg : Option Message) : ConsumerResult :=
  match msg with
  | none => { ops := [], threw := false }
  | some m =>
    match m.content with
    | .malformed _ => { ops := [], threw := true }
    | .wellFormed params =>
      if params = .null then { ops := [], threw := true }
      else
        { ops := [.publishEvent (params.getField "name") (params.getField "data"),
                  .ack m],
          threw := false }

/-- The `widgetNotification` consumer callback (src/src/messageBroker.ts lines
188-193): `await receiveWidgetNotification(JSON.parse(...)); channel.ack(msg)`.
The external handler is passed as a function; `.error` models its promise
rejecting, which makes the `await` throw and skips the ack. -/
def widgetConsumerStep (receiveWidgetNotification : Json → Except String Unit)
    (msg : Option Message) : ConsumerResult :=
  match msg with
  | none => { ops := [], threw := false }
  | some m =>
    match m.content with
    | .malformed _ => { ops := [], threw := true }
    | .wellFormed j =>
      match receiveWidgetNotification j with
      | .error _ => { ops := [], threw := true }
      | .ok _ => { ops := [.ack m], threw := false }

/-- The `integrationsNotification` consumer callback (src/src/messageBroker.ts
lines 198-203): same shape as the widget consumer, with the external handler
`receiveIntegrationsNotification`. -/
def integrationsConsumerStep (receiveIntegrationsNotification : Json → Except String Unit)
    (msg : Option Message) : ConsumerResult :=
  match msg with
  | none => { ops := [], threw := false }
  | some m =>
    match m.content with
    | .malformed _ => { ops := [], threw := true }
    | .wellFormed j =>
      match receiveIntegrationsNotification j with
      | .error _ => { ops := [], threw := true }
      | .ok _ => { ops := [.ack m], threw := false }

/-- The `engages-api:set-donot-disturb` consumer callback
(src/src/messageBroker.ts lines 208-216): parse, `await Customers.updateOne(
{ _id: data.customerId }, ...)`, ack.  The database call is external and
passed as a function of the customer id; `.error` models its rejection
(the `await` throws, skipping the ack).  A parsed `null` makes the
`data.customerId` access throw. -/
def engagesConsumerStep (updateOne : Option Json → Except String Unit)
    (msg : Option Message) : ConsumerResult :=
  match msg with
  | none => { ops := [], threw := false }
  | some m =>
    match m.content with
    | .malformed _ => { ops := [], threw := true }
    | .wellFormed data =>
      if data = .null then { ops := [], threw := true }
      else
        match updateOne (data.getField "customerId") with
        | .error _ => { ops := [.updateDoNotDisturb (data.getField "customerId")], threw := true }
        | .ok _ =>
          { ops := [.updateDoNotDisturb (data.getField "customerId"), .ack m],
            threw := false }

/-- The `sparkNotification` consumer callback (src/src/messageBroker.ts lines
221-234): log, parse, `delete data.subdomain`, start
`RobotEntries.createEntry(data)` **without awaiting it** (its failure is
caught by the attached `.catch` and only logged), then ack.  The ack is
therefore performed whether or not the entry creation fails.  A parsed `null`
makes `delete data.subdomain` throw before the entry creation and the ack. -/
def sparkConsumerStep (msg : Option Message) : ConsumerResult :=
  match msg with
  | none => { ops := [], threw := false }
  | some m =>
    match m.content with
    | .malformed _ => { ops := [.debugLog m.content], threw := true }
    | .wellFormed data =>
      if data = .null then { ops := [.debugLog m.content], threw := true }
      else
        { ops := [.debugLog m.content,
                  .createRobotEntry (data.removeField "subdomain"),
                  .ack m],
          threw := false }

/-- Sequential delivery of a list of messages to one consumer: the broker
invokes the callback once per delivery and keeps delivering regardless of how
earlier invocations ended (an async callback that throws is an unhandled
rejection, not a dispatcher crash). -/
def processQueue (step : Option Message → ConsumerResult) :
    List (Option Message) → List Effect
  | [] => []
  | m :: rest => (step m).ops ++ processQueue step rest

/-- The channel operations `initConsumer` performs at startup
(src/src/messageBroker.ts lines 156-235): for each well-known queue, an
`assertQueue` (default options) followed by one `consume` (default options,
i.e. manual acknowledgment, `noAck = false`).  This trace is everything
`initConsumer` does after connecting; no further registration happens at
runtime. -/
def initConsumerTrace : List Effect :=
  [ .assertQueue "rpc_queue:erxes-integrations" false,
    .consume "rpc_queue:erxes-integrations" false,
    .assertQueue "callPublish" false,
    .consume "callPublish" false,
    .assertQueue "widgetNotification" false,
    .consume "widgetNotification" false,
    .assertQueue "integrationsNotification" false,
    .consume "integrationsNotification" false,
    .assertQueue "engages-api:set-donot-disturb" false,
    .consume "engages-api:set-donot-disturb" false,
    .assertQueue "sparkNotification" false,
    .consume "sparkNotification" false ]

/-- The six well-known queue names consumed at startup. -/
def wellKnownQueues : List String :=
  [ "rpc_queue:erxes-integrations", "callPublish", "widgetNotification",
    "integrationsNotification", "engages-api:set-donot-disturb",
    "sparkNotification" ]

/-- A JS value passed as the optional `data` argument of `sendMessage`:
either the JS value `undefined` (argument omitted or explicitly undefined) or
a JSON-representable value.  (A `NaN` number argument, also falsy in JS, has
no representative here; integers stand in for JS numbers.) -/
inductive JsArg where
  | undefined : JsArg
  | value (j : Json) : JsArg
deriving DecidableEq, Repr

/-- JS truthiness test on a `JsArg`: `undefined`, `null`, `false`, `0` and
`''` are falsy; everything else is truthy. -/
def JsArg.isFalsy : JsArg → Bool
  | .undefined => true
  | .value .null => true
  | .value (.bool false) => true
  | .value (.num 0) => true
  | .value (.str "") => true
  | _ => false

/-- The JS expression `data || alt`: `alt` when `data` is falsy, otherwise the
value of `data`. -/
def JsArg.orElse : JsArg → Json → Json
  | .undefined, alt => alt
  | .value j, alt => if (JsArg.value j).isFalsy then alt else j

/-- A single character escaped as inside a `JSON.stringify` string literal.
(Control characters other than newline, carriage return and tab are left
unescaped; no payload in the claims contains any.) -/
def escapeChar (c : Char) : String :=
  if c = '"' then "\\\""
  else if c = '\\' then "\\\\"
  else if c = '\n' then "\\n"
  else if c = '\r' then "\\r"
  else if c = '\t' then "\\t"
  else String.singleton c

/-- String-literal body of `JSON.stringify` on a string. -/
def escapeString (s : String) : String :=
  String.join (s.toList.map escapeChar)

mutual
/-- `JSON.stringify` on a JSON value (the exact bytes sent to the broker). -/
def Json.stringify : Json → String
  | .null => "null"
  | .bool b => if b then "true" else "false"
  | .num n => toString n
  | .str s => "\"" ++ escapeString s ++ "\""
  | .arr xs => "[" ++ JsonList.stringifyElems xs ++ "]"
  | .obj fs => "\x7b" ++ JsonFields.stringifyFields fs ++ "\x7d"
/-- Comma-separated serializations of array elements. -/
def JsonList.stringifyElems : JsonList → String
  | .nil => ""
  | .cons x .nil => x.stringify
  | .cons x tl => x.stringify ++ "," ++ tl.stringifyElems
/-- Comma-separated serializations of object fields. -/
def JsonFields.stringifyFields : JsonFields → String
  | .nil => ""
  | .cons k v .nil => "\"" ++ escapeString k ++ "\":" ++ v.stringify
  | .cons k v tl => "\"" ++ escapeString k ++ "\":" ++ v.stringify ++ "," ++ tl.stringifyFields
end

/-- The fire-and-forget client primitive (src/src/messageBroker.ts lines
144-147):

```
export const sendMessage = async (queueName: string, data?: any) => {
  await channel.assertQueue(queueName);
  await channel.sendToQueue(queueName, Buffer.from(JSON.stringify(data || {})));
};
```

The body published is `JSON.stringify(data || {})`; the `sendToQueue` effect
records the value whose serialization is sent. -/
def sendMessage (queueName : String) (data : JsArg) : List Effect :=
  [ .assertQueue queueName false,
    .sendToQueue (some queueName) (data.orElse (.obj .nil))
      { correlationId := none, replyTo := none } ]

/-- A concrete success reply body: `{"status":"success","data":7}`. -/
def successReplyBody : Json :=
  .obj (.cons "status" (.str "success") (.cons "data" (.num 7) .nil))

/-- A concrete error reply body: `{"status":"error","errorMessage":"boom"}`. -/
def errorReplyBody : Json :=
  .obj (.cons "status" (.str "error") (.cons "errorMessage" (.str "boom") .nil))

/-- A concrete reply message carrying `successReplyBody` with correlation id `"cid-1"`. -/
def successReplyMsg : Message :=
  { content := .wellFormed successReplyBody,
    properties := { correlationId := some "cid-1", replyTo := none } }

/-- A concrete reply message carrying `errorReplyBody` with correlation id `"cid-1"`. -/
def errorReplyMsg : Message :=
  { content := .wellFormed errorReplyBody,
    properties := { correlationId := some "cid-1", replyTo := none } }

/-- C1: for an RPC call with generated correlation id, a matching decoded
reply with `status = "success"` resolves the call with exactly the reply's
`data` field, a matching decoded reply with `status = "error"` rejects the
call carrying exactly the reply's `errorMessage` field, and in either branch
the exclusive reply queue is deleted. -/
theorem rpc_matching_reply_settles_and_deletes
    (correlationId qQueue : String) (m : Message) (res : Json)
    (hmatch : m.properties.correlationId = some correlationId)
    (hcontent : m.content = .wellFormed res) :
    (res.getField "status" = some (.str "success") →
      rpcReplyCallback correlationId qQueue (some m) =
        { outcome := .resolved (res.getField "data"),
          deleted := some qQueue, threw := false }) ∧
    (res.getField "status" = some (.str "error") →
      rpcReplyCallback correlationId qQueue (some m) =
        { outcome := .rejectedValue (res.getField "errorMessage"),
          deleted := some qQueue, threw := false }) := by
  have hnn : ∀ s : String, ∀ v, res.getField s = some v → ¬ res = Json.null := by
    intro s v hv h
    subst h
    simp [Json.getField] at hv
  constructor
  · intro hs
    simp [rpcReplyCallback, hmatch, hcontent, hnn _ _ hs, hs]
  · intro hs
    have hne : ¬ res.getField "status" = some (.str "success") := by
      rw [hs]; simp
    simp [rpcReplyCallback, hmatch, hcontent, hnn _ _ hs, hne]

/-- Witness for C1 at concrete replies: the success reply resolves with `7`
and deletes the reply queue; the error reply rejects with `"boom"` and
deletes the reply queue. -/
theorem rpc_matching_reply_settles_and_deletes_witness :
    rpcReplyCallback "cid-1" "amq.gen-r1" (some successReplyMsg) =
      { outcome := .resolved (some (.num 7)), deleted := some "amq.gen-r1",
        threw := false } ∧
    rpcReplyCallback "cid-1" "amq.gen-r1" (some errorReplyMsg) =
      { outcome := .rejectedValue (some (.str "boom")),
        deleted := some "amq.gen-r1", threw := false } :=
  ⟨(rpc_matching_reply_settles_and_deletes "cid-1" "amq.gen-r1"
      successReplyMsg successReplyBody rfl rfl).1 (by decide),
   (rpc_matching_reply_settles_and_deletes "cid-1" "amq.gen-r1"
      errorReplyMsg errorReplyBody rfl rfl).2 (by decide)⟩

/-- C3: a delivered reply whose `correlationId` does not match the one
generated for the call neither resolves nor rejects the call, deletes no
queue and throws nothing — and conversely, any invocation that settles the
call was for a matching reply. -/
theorem rpc_nonmatching_reply_ignored
    (correlationId qQueue : String) (m : Message) :
    (m.properties.correlationId ≠ some correlationId →
      rpcReplyCallback correlationId qQueue (some m) =
        { outcome := .pending, deleted := none, threw := false }) ∧
    ((rpcReplyCallback correlationId qQueue (some m)).outcome ≠ .pending →
      m.properties.correlationId = some correlationId) := by
  constructor
  · intro hne
    simp [rpcReplyCallback, hne]
  · intro hsettled
    by_cases hmatch : m.properties.correlationId = some correlationId
    · exact hmatch
    · exact absurd (by simp [rpcReplyCallback, hmatch]) hsettled

/-- Witness for C3: a reply carrying correlation id `"other"` is ignored by a
call whose generated id is `"cid-1"`. -/
theorem rpc_nonmatching_reply_ignored_witness :
    rpcReplyCallback "cid-1" "amq.gen-r1"
      (some { content := .wellFormed successReplyBody,
              properties := { correlationId := some "other", replyTo := none } }) =
      { outcome := .pending, deleted := none, threw := false } :=
  (rpc_nonmatching_reply_ignored "cid-1" "amq.gen-r1"
    { content := .wellFormed successReplyBody,
      properties := { correlationId := some "other", replyTo := none } }).1
    (by decide)

/-- C10: the broker invoking the reply-queue callback with a null message
(consumer cancelled) rejects the call with an `Error` whose message is
exactly `'consumer cancelled by rabbitmq'`, and deletes no queue. -/
theorem rpc_cancelled_consumer_rejects (correlationId qQueue : String) :
    rpcReplyCallback correlationId qQueue none =
      { outcome := .rejectedError "consumer cancelled by rabbitmq",
        deleted := none, threw := false } := rfl

/-- C5: `sendRPCMessage` declares an exclusive broker-named reply queue
(asserted under the empty name so the broker chooses it), subscribes to it in
no-ack mode, then publishes the request to the fixed `rpc_queue:erxes-api`
queue with `correlationId` the freshly generated id and `replyTo` the
declared reply queue's name — in that order and nothing else. -/
theorem sendRPCMessage_setup_protocol
    (message : Json) (correlationId qQueue : String) :
    (sendRPCMessageSetup message correlationId qQueue).length = 3 ∧
    (sendRPCMessageSetup message correlationId qQueue).get? 0 =
      some (.assertQueue "" true) ∧
    (sendRPCMessageSetup message correlationId qQueue).get? 1 =
      some (.consume qQueue true) ∧
    (sendRPCMessageSetup message correlationId qQueue).get? 2 =
      some (.sendToQueue (some "rpc_queue:erxes-api") message
        { correlationId := some correlationId, replyTo := some qQueue }) :=
  ⟨rfl, rfl, rfl, rfl⟩

/-- C4: for a message delivered on the `rpc_queue:erxes-integrations` queue
whose body decodes and whose handler returns a value, the consumer publishes
the (serialized) handler return value to the message's `replyTo` queue with
the original `correlationId`, and acknowledges the inbound message after that
publish (the trace is log, publish, ack, with no throw). -/
theorem rpc_server_replies_then_acks
    (receiveRpcMessage : Json → Except String Json)
    (m : Message) (j response : Json)
    (hcontent : m.content = .wellFormed j)
    (hhandler : receiveRpcMessage j = .ok response) :
    rpcConsumerStep receiveRpcMessage (some m) =
      { ops := [ .debugLog m.content,
                 .sendToQueue m.properties.replyTo response
                   { correlationId := m.properties.correlationId, replyTo := none },
                 .ack m ],
        threw := false } := by
  simp [rpcConsumerStep, hcontent, hhandler]

/-- Witness for C4: a `{"op":"ping"}` request whose handler returns
`"pong"` yields log, publish of `"pong"` to the `replyTo` queue with the
original correlation id, then ack. -/
theorem rpc_server_replies_then_acks_witness :
    rpcConsumerStep (fun _ => .ok (.str "pong"))
      (some { content := .wellFormed (.obj (.cons "op" (.str "ping") .nil)),
              properties := { correlationId := some "cid-9",
                              replyTo := some "amq.gen-r9" } }) =
      { ops := [ .debugLog (.wellFormed (.obj (.cons "op" (.str "ping") .nil))),
                 .sendToQueue (some "amq.gen-r9") (.str "pong")
                   { correlationId := some "cid-9", replyTo := none },
                 .ack { content := .wellFormed (.obj (.cons "op" (.str "ping") .nil)),
                        properties := { correlationId := some "cid-9",
                                        replyTo := some "amq.gen-r9" } } ],
        threw := false } :=
  rpc_server_replies_then_acks (fun _ => .ok (.str "pong"))
    { content := .wellFormed (.obj (.cons "op" (.str "ping") .nil)),
      properties := { correlationId := some "cid-9", replyTo := some "amq.gen-r9" } }
    (.obj (.cons "op" (.str "ping") .nil)) (.str "pong") rfl rfl

/-- C6: at startup `initConsumer` declares exactly the six well-known queues
`rpc_queue:erxes-integrations`, `callPublish`, `widgetNotification`,
`integrationsNotification`, `engages-api:set-donot-disturb` and
`sparkNotification`; for each queue the declaration immediately precedes the
single `consume` registration for it, every `consume` uses manual
acknowledgment (`noAck = false`), queue names are pairwise distinct (so
exactly one handler per queue), and the trace contains nothing else — in
particular no registration is added or changed after startup. -/
theorem initConsumer_declares_well_known_queues :
    initConsumerTrace =
      (wellKnownQueues.map
        (fun q => [Effect.assertQueue q false, Effect.consume q false])).flatten ∧
    wellKnownQueues.Nodup ∧
    wellKnownQueues =
      [ "rpc_queue:erxes-integrations", "callPublish", "widgetNotification",
        "integrationsNotification", "engages-api:set-donot-disturb",
        "sparkNotification" ] := by
  refine ⟨rfl, ?_, rfl⟩
  decide

/-- C7: a message `{name: N, data: D}` delivered on the `callPublish`
(publish-relay) queue makes the consumer invoke the external event-broadcast
collaborator's `publish(N, D)` exactly once and then acknowledge the message. -/
theorem callPublish_forwards_once_then_acks
    (m : Message) (params nameVal dataVal : Json)
    (hcontent : m.content = .wellFormed params)
    (hname : params.getField "name" = some nameVal)
    (hdata : params.getField "data" = some dataVal) :
    callPublishStep (some m) =
      { ops := [ .publishEvent (some nameVal) (some dataVal), .ack m ],
        threw := false } ∧
    ((callPublishStep (some m)).ops.count
      (.publishEvent (some nameVal) (some dataVal)) = 1) := by
  have hnn : ¬ params = Json.null := by
    intro h; subst h; simp [Json.getField] at hname
  have hstep : callPublishStep (some m) =
      { ops := [ .publishEvent (some nameVal) (some dataVal), .ack m ],
        threw := false } := by
    simp [callPublishStep, hcontent, hnn, hname, hdata]
  refine ⟨hstep, ?_⟩
  rw [hstep]
  simp [List.count_cons]

/-- Witness for C7: `{name:"fooEvent", data:{x:1}}` yields exactly one
`publish("fooEvent", {x:1})` followed by the ack. -/
theorem callPublish_forwards_once_then_acks_witness :
    callPublishStep
      (some { content := .wellFormed (.obj (.cons "name" (.str "fooEvent")
                (.cons "data" (.obj (.cons "x" (.num 1) .nil)) .nil))),
              properties := { correlationId := none, replyTo := none } }) =
      { ops := [ .publishEvent (some (.str "fooEvent"))
                   (some (.obj (.cons "x" (.num 1) .nil))),
                 .ack { content := .wellFormed (.obj (.cons "name" (.str "fooEvent")
                          (.cons "data" (.obj (.cons "x" (.num 1) .nil)) .nil))),
                        properties := { correlationId := none, replyTo := none } } ],
        threw := false } :=
  (callPublish_forwards_once_then_acks
    { content := .wellFormed (.obj (.cons "name" (.str "fooEvent")
        (.cons "data" (.obj (.cons "x" (.num 1) .nil)) .nil))),
      properties := { correlationId := none, replyTo := none } }
    (.obj (.cons "name" (.str "fooEvent")
      (.cons "data" (.obj (.cons "x" (.num 1) .nil)) .nil)))
    (.str "fooEvent") (.obj (.cons "x" (.num 1) .nil))
    rfl (by decide) (by decide)).1

/-- C9: when the `data` argument of `sendMessage` is omitted/undefined or
otherwise falsy, the body published is the empty object, whose serialization
is the two bytes `{}`; and for every argument whatsoever the published value
is never JSON `null` (so the literal serializations of `undefined` and `null`
are never sent). -/
theorem sendMessage_falsy_sends_empty_object
    (queueName : String) (data : JsArg) (hfalsy : data.isFalsy = true) :
    sendMessage queueName data =
      [ .assertQueue queueName false,
        .sendToQueue (some queueName) (.obj .nil)
          { correlationId := none, replyTo := none } ] ∧
    (Json.obj .nil).stringify = "\x7b\x7d" ∧
    (∀ (d : JsArg) (qn : String),
      sendMessage qn d =
        [ .assertQueue qn false,
          .sendToQueue (some qn) (d.orElse (.obj .nil))
            { correlationId := none, replyTo := none } ] ∧
      d.orElse (.obj .nil) ≠ Json.null) := by
  refine ⟨?_, rfl, ?_⟩
  · cases data with
    | undefined => rfl
    | value j => simp [sendMessage, JsArg.orElse, hfalsy]
  · intro d qn
    refine ⟨rfl, ?_⟩
    cases d with
    | undefined => simp [JsArg.orElse]
    | value j =>
      by_cases hf : (JsArg.value j).isFalsy = true
      · simp [JsArg.orElse, hf]
      · have : ¬ j = Json.null := by
          intro h; subst h; simp [JsArg.isFalsy] at hf
        simp [JsArg.orElse, hf, this]

/-- Witness for C9 at the omitted argument: `sendMessage('logs')` publishes
the empty object. -/
theorem sendMessage_falsy_sends_empty_object_witness :
    sendMessage "logs" .undefined =
      [ .assertQueue "logs" false,
        .sendToQueue (some "logs") (.obj .nil)
          { correlationId := none, replyTo := none } ] ∧
    (Json.obj .nil).stringify = "\x7b\x7d" :=
  ⟨(sendMessage_falsy_sends_empty_object "logs" .undefined rfl).1,
   (sendMessage_falsy_sends_empty_object "logs" .undefined rfl).2.1⟩

/-- A concrete well-formed message (body `{}`, no properties) used to refute
C2: delivered on `widgetNotification` with a failing handler. -/
def plainMsg : Message :=
  { content := .wellFormed (.obj .nil),
    properties := { correlationId := none, replyTo := none } }

/-- Counterexample to C2 as stated: on the well-known `widgetNotification`
queue, a delivery whose handler fails is **not** acknowledged — the `await`
throws before `channel.ack(msg)` runs, so the callback performs no effect at
all and rejects. -/
theorem widget_failed_handler_not_acked_cex :
    (widgetConsumerStep (fun _ => .error "boom") (some plainMsg)).ops = [] ∧
    Effect.ack plainMsg ∉
      (widgetConsumerStep (fun _ => .error "boom") (some plainMsg)).ops ∧
    (widgetConsumerStep (fun _ => .error "boom") (some plainMsg)).threw = true := by
  refine ⟨rfl, ?_, rfl⟩
  simp [widgetConsumerStep, plainMsg]

/-- C2 (amended): on the consumers that `await` their handler
(`rpc_queue:erxes-integrations`, `widgetNotification`,
`integrationsNotification`, `engages-api:set-donot-disturb`), a failing
handler makes the callback reject **before** the acknowledgment, so the
message is left unacknowledged; the `callPublish` consumer invokes its
publish collaborator **without** awaiting it and then acknowledges
unconditionally, so a failure there cannot skip the ack; the
`sparkNotification` consumer likewise acknowledges regardless, because its
entry creation runs detached with its failure caught; and in every case the
failure does not prevent subsequent messages on that queue, or messages on
other queues, from being processed (delivery processing is per-message: the
effects of later deliveries are appended unconditionally). -/
theorem handler_failure_ack_behavior
    (handler : Json → Except String Unit) (m : Message) (j : Json) (e : String)
    (hcontent : m.content = .wellFormed j)
    (hhandler : handler j = .error e) :
    widgetConsumerStep handler (some m) = { ops := [], threw := true } ∧
    integrationsConsumerStep handler (some m) = { ops := [], threw := true } ∧
    (∀ rpcHandler : Json → Except String Json, rpcHandler j = .error e →
      rpcConsumerStep rpcHandler (some m) =
        { ops := [.debugLog m.content], threw := true }) ∧
    (∀ updateOne : Option Json → Except String Unit, ¬ j = Json.null →
      updateOne (j.getField "customerId") = .error e →
      engagesConsumerStep updateOne (some m) =
        { ops := [.updateDoNotDisturb (j.getField "customerId")], threw := true }) ∧
    (¬ j = Json.null →
      callPublishStep (some m) =
        { ops := [ .publishEvent (j.getField "name") (j.getField "data"),
                   .ack m ],
          threw := false }) ∧
    (¬ j = Json.null →
      sparkConsumerStep (some m) =
        { ops := [ .debugLog m.content,
                   .createRobotEntry (j.removeField "subdomain"), .ack m ],
          threw := false }) ∧
    (∀ (step : Option Message → ConsumerResult) (m0 : Option Message)
        (rest : List (Option Message)),
      processQueue step (m0 :: rest) = (step m0).ops ++ processQueue step rest) := by
  refine ⟨?_, ?_, ?_, ?_, ?_, ?_, ?_⟩
  · simp [widgetConsumerStep, hcontent, hhandler]
  · simp [integrationsConsumerStep, hcontent, hhandler]
  · intro rpcHandler hrpc
    simp [rpcConsumerStep, hcontent, hrpc]
  · intro updateOne hnn hupd
    simp [engagesConsumerStep, hcontent, hnn, hupd]
  · intro hnn
    simp [callPublishStep, hcontent, hnn]
  · intro hnn
    simp [sparkConsumerStep, hcontent, hnn]
  · intro step m0 rest
    rfl

/-- Witness for the amended C2 at a concrete failing handler and message:
the widget consumer performs no effects and rejects. -/
theorem handler_failure_ack_behavior_witness :
    widgetConsumerStep (fun _ => .error "boom") (some plainMsg) =
      { ops := [], threw := true } :=
  (handler_failure_ack_behavior (fun _ => .error "boom") plainMsg
    (.obj .nil) "boom" rfl rfl).1

/-- A concrete delivery whose body is malformed JSON, used to refute C8. -/
def malformedMsg : Message :=
  { content := .malformed "not json",
    properties := { correlationId := none, replyTo := none } }

/-- Counterexample to C8 as stated: on the `callPublish` consumer registered
by `initConsumer`, a delivery whose body is malformed JSON is neither logged
nor dropped — the callback performs no effect at all (no log, no ack) and
rejects. -/
theorem callPublish_malformed_not_logged_cex :
    (callPublishStep (some malformedMsg)).ops = [] ∧
    (∀ c : Content, Effect.debugLog c ∉ (callPublishStep (some malformedMsg)).ops) ∧
    Effect.ack malformedMsg ∉ (callPublishStep (some malformedMsg)).ops ∧
    (callPublishStep (some malformedMsg)).threw = true := by
  refine ⟨rfl, ?_, ?_, rfl⟩
  · intro c
    simp [callPublishStep, malformedMsg]
  · simp [callPublishStep, malformedMsg]

/-- C8 (amended): a delivered message whose body is malformed JSON makes the
consumer callback throw before acknowledging, so the message is left
unacknowledged; on the `callPublish`, `widgetNotification`,
`integrationsNotification` and `engages-api:set-donot-disturb` consumers
nothing at all is logged, while the `rpc_queue:erxes-integrations` and
`sparkNotification` consumers log the raw content before parsing; in every
case the decoding failure does not stop processing of subsequent messages on
any queue (the effects of later deliveries are appended unconditionally). -/
theorem malformed_body_behavior (m : Message) (raw : String)
    (hcontent : m.content = .malformed raw) :
    callPublishStep (some m) = { ops := [], threw := true } ∧
    (∀ handler, widgetConsumerStep handler (some m) = { ops := [], threw := true }) ∧
    (∀ handler, integrationsConsumerStep handler (some m) =
      { ops := [], threw := true }) ∧
    (∀ updateOne, engagesConsumerStep updateOne (some m) =
      { ops := [], threw := true }) ∧
    (∀ rpcHandler, rpcConsumerStep rpcHandler (some m) =
      { ops := [.debugLog m.content], threw := true }) ∧
    sparkConsumerStep (some m) = { ops := [.debugLog m.content], threw := true } ∧
    (∀ (step : Option Message → ConsumerResult) (m0 : Option Message)
        (rest : List (Option Message)),
      processQueue step (m0 :: rest) = (step m0).ops ++ processQueue step rest) := by
  refine ⟨?_, ?_, ?_, ?_, ?_, ?_, ?_⟩
  · simp [callPublishStep, hcontent]
  · intro handler; simp [widgetConsumerStep, hcontent]
  · intro handler; simp [integrationsConsumerStep, hcontent]
  · intro updateOne; simp [engagesConsumerStep, hcontent]
  · intro rpcHandler; simp [rpcConsumerStep, hcontent]
  · simp [sparkConsumerStep, hcontent]
  · intro step m0 rest; rfl

/-- Witness for the amended C8 at the concrete malformed delivery: the
`callPublish` consumer performs no effect and rejects. -/
theorem malformed_body_behavior_witness :
    callPublishStep (some malformedMsg) = { ops := [], threw := true } :=
  (malformed_body_behavior malformedMsg "not json" rfl).1
